import Mathlib

/-!
Verification of the budget-variance analysis core of
`financial_analytics_showcase/cost_analytics/budget_variance_analyzer.py`.

The analyzed code works on a pandas DataFrame with the columns produced by
`generate_sample_data` (`month`, `fiscal_year`, `cost_center`,
`cost_center_name`, `monthly_budget`, `actual_spending`, `quarter`).
`calculate_variances` adds five derived columns to that frame, in place,
and returns the same frame:

  df['budget_variance'] = df['actual_spending'] - df['monthly_budget']
  df['variance_pct']    = (df['budget_variance'] / df['monthly_budget'] * 100).round(2)
  df['spending_rate']   = (df['actual_spending'] / df['monthly_budget'] * 100).round(2)
  df['variance_category'] = df['variance_pct'].apply(categorize_variance)
  df['needs attention']   = df['variance_category'].isin(
      ['Significantly Overrun', 'Significantly Underspending'])

All of these column operations are elementwise over the rows, so the frame is
embedded as a list of rows and the five assignments as one map computing the
derived fields of each row from its base fields.  Monetary amounts are
embedded as exact rationals; float division by zero is kept IEEE-faithful by
an explicit value type with signed infinities and NaN, which is what pandas
produces on a zero `monthly_budget` (no exception is raised).  `.round(2)`
is numpy rounding: nearest multiple of 1/100, ties to even.
-/

namespace BudgetVariance

/-- Value held by a pandas float column: an exact finite rational, or one of
the IEEE special values that float division can introduce. -/
inductive FloatVal where
  | fin (q : ℚ)
  | inf
  | ninf
  | nan
deriving DecidableEq, Repr

/-- Float division as pandas performs it elementwise: a zero divisor yields a
signed infinity (nonzero dividend) or NaN (zero dividend) instead of raising. -/
def fdiv (x y : ℚ) : FloatVal :=
  if y = 0 then
    if 0 < x then .inf else if x < 0 then .ninf else .nan
  else .fin (x / y)

/-- Elementwise multiplication of a column value by the scalar 100. -/
def FloatVal.mul100 : FloatVal → FloatVal
  | .fin q => .fin (q * 100)
  | .inf => .inf
  | .ninf => .ninf
  | .nan => .nan

/-- Rounding to the nearest integer with ties to even, the tie-breaking rule
of `numpy.round` which pandas `Series.round` delegates to. -/
def roundHalfEven (q : ℚ) : ℤ :=
  if q - (⌊q⌋ : ℚ) < 1 / 2 then ⌊q⌋
  else if 1 / 2 < q - (⌊q⌋ : ℚ) then ⌊q⌋ + 1
  else if ⌊q⌋ % 2 = 0 then ⌊q⌋ else ⌊q⌋ + 1

/-- `Series.round(2)`: round to the nearest hundredth, ties to even. -/
def roundTo2dec (q : ℚ) : ℚ := (roundHalfEven (q * 100) : ℚ) / 100

/-- `Series.round(2)` on a column value; infinities and NaN pass through,
as `numpy.round` leaves them unchanged. -/
def FloatVal.round2 : FloatVal → FloatVal
  | .fin q => .fin (roundTo2dec q)
  | .inf => .inf
  | .ninf => .ninf
  | .nan => .nan

/-- Python comparison `x <= c` on a float column value against a finite
threshold: False whenever `x` is NaN. -/
def FloatVal.pyLe (x : FloatVal) (c : ℚ) : Bool :=
  match x with
  | .fin q => decide (q ≤ c)
  | .inf => false
  | .ninf => true
  | .nan => false

/-- Python comparison `x >= c` on a float column value against a finite
threshold: False whenever `x` is NaN. -/
def FloatVal.pyGe (x : FloatVal) (c : ℚ) : Bool :=
  match x with
  | .fin q => decide (c ≤ q)
  | .inf => true
  | .ninf => false
  | .nan => false

/-- The `self.variance_thresholds` dictionary of `BudgetVarianceAnalyzer`,
with one field per string key of the source dictionary. -/
structure VarianceThresholds where
  significantly_over : ℚ
  significantly_under : ℚ
  slightly_over : ℚ
  slightly_under : ℚ
deriving DecidableEq, Repr

/-- The threshold values installed by `BudgetVarianceAnalyzer.__init__`. -/
def defaultThresholds : VarianceThresholds :=
  { significantly_over := -10
    significantly_under := 25
    slightly_over := -5
    slightly_under := 15 }

/-- The five categories returned by `categorize_variance`; constructor names
follow the returned strings, including the source misspelling
`'Slighty Overrun'`. -/
inductive VarianceCategory where
  | significantlyOverrun
  | slightyOverrun
  | significantlyUnderspending
  | slightlyUnderspending
  | withinTarget
deriving DecidableEq, Repr

/-- The exact strings `categorize_variance` returns for each category. -/
def categoryString : VarianceCategory → String
  | .significantlyOverrun => "Significantly Overrun"
  | .slightyOverrun => "Slighty Overrun"
  | .significantlyUnderspending => "Significantly Underspending"
  | .slightlyUnderspending => "Slightly Underspending"
  | .withinTarget => "Within Target"

/-- The inner function `categorize_variance` of `calculate_variances`: a chain
of `if`/`elif` float comparisons of the (rounded) variance percentage against
the four thresholds. -/
def categorize_variance (t : VarianceThresholds) (variance_pct : FloatVal) :
    VarianceCategory :=
  if variance_pct.pyLe t.significantly_over then .significantlyOverrun
  else if variance_pct.pyLe t.slightly_over then .slightyOverrun
  else if variance_pct.pyGe t.significantly_under then .significantlyUnderspending
  else if variance_pct.pyGe t.slightly_under then .slightlyUnderspending
  else .withinTarget

/-- One input row of the frame consumed by `calculate_variances`: the columns
that `generate_sample_data` produces. -/
structure SpendingRow where
  month : Nat
  fiscal_year : Int
  cost_center : String
  cost_center_name : String
  monthly_budget : ℚ
  actual_spending : ℚ
  quarter : String
deriving DecidableEq, Repr

/-- The five columns `calculate_variances` assigns; `needs_attention` stands
for the source column name `'needs attention'`. -/
structure DerivedCols where
  budget_variance : ℚ
  variance_pct : FloatVal
  spending_rate : FloatVal
  variance_category : String
  needs_attention : Bool
deriving DecidableEq, Repr

/-- The derived columns of one row, computed exactly as the five elementwise
column assignments of `calculate_variances` compute them. -/
def computeRow (t : VarianceThresholds) (r : SpendingRow) : DerivedCols :=
  let budget_variance := r.actual_spending - r.monthly_budget
  let variance_pct := ((fdiv budget_variance r.monthly_budget).mul100).round2
  let spending_rate := ((fdiv r.actual_spending r.monthly_budget).mul100).round2
  let variance_category := categoryString (categorize_variance t variance_pct)
  { budget_variance := budget_variance
    variance_pct := variance_pct
    spending_rate := spending_rate
    variance_category := variance_category
    needs_attention :=
      (["Significantly Overrun", "Significantly Underspending"] : List String).contains
        variance_category }

/-- One row of the DataFrame state: the base columns always present, and the
derived columns, which are `none` before `calculate_variances` has run on the
frame and `some` afterwards. -/
structure DataRow where
  base : SpendingRow
  derived : Option DerivedCols
deriving DecidableEq, Repr

/-- The `BudgetVarianceAnalyzer` object: its two instance attributes. -/
structure BudgetVarianceAnalyzer where
  variance_thresholds : VarianceThresholds
  cost_centers : List (String × String)
deriving DecidableEq, Repr

/-- `BudgetVarianceAnalyzer.__init__`: takes no arguments, performs no
validation, and unconditionally installs the fixed threshold and cost-center
dictionaries. -/
def BudgetVarianceAnalyzer.init : BudgetVarianceAnalyzer :=
  { variance_thresholds := defaultThresholds
    cost_centers :=
      [("AIR_QUALITY", "Air Quality Monitoring"),
       ("WATER_TESTING", "Water Quality Testing"),
       ("WASTE_MGMT", "Waste Management"),
       ("SUSTAINABILITY", "Sustainability Programs"),
       ("COMPLIANCE", "Environmental Compliance")] }

/-- `calculate_variances(self, df)`.  The source mutates `df` in place (each
`df[col] = ...` adds a column to the caller's frame) and returns that same
frame, so the caller's frame after the call is exactly the returned list:
every row keeps its base columns and gets all five derived columns
(re)computed. -/
def calculate_variances (self : BudgetVarianceAnalyzer) (df : List DataRow) :
    List DataRow :=
  df.map fun r =>
    { base := r.base, derived := some (computeRow self.variance_thresholds r.base) }

/-- A sample input row with the given budgeted and actual amounts and fixed
identifying columns. -/
def mkRow (b a : ℚ) : SpendingRow :=
  { month := 1
    fiscal_year := 2024
    cost_center := "AIR_QUALITY"
    cost_center_name := "Air Quality Monitoring"
    monthly_budget := b
    actual_spending := a
    quarter := "Q1" }

/-- C1: with the default thresholds, the record budgeted 10000 / actual 11200
yields `variance_pct = 12.0` as the claim says, but the code classifies it
`'Within Target'` with `needs attention = False`, not Significantly Overrun
with attention: the threshold signs contradict the source comments
(`significantly_over: -10  # >10% over budget`) because
`budget_variance = actual - budget` makes over-budget variance positive. -/
theorem c1_overrun_misclassified :
    (computeRow defaultThresholds (mkRow 10000 11200)).variance_pct = .fin 12 ∧
    (computeRow defaultThresholds (mkRow 10000 11200)).variance_category =
      "Within Target" ∧
    (computeRow defaultThresholds (mkRow 10000 11200)).needs_attention = false := by
  norm_num [computeRow, mkRow, fdiv, FloatVal.mul100, FloatVal.round2, roundTo2dec,
    roundHalfEven, categorize_variance, FloatVal.pyLe, FloatVal.pyGe, categoryString,
    defaultThresholds]
  decide

/-- C2 counterexample: for `budgeted_amount = 0` and `actual_amount = 500`
(the spec's scenario 6) the code does not fail: the float division silently
yields `variance_pct = +inf` and `spending_rate = +inf`. -/
theorem c2_zero_budget_silent_infinity :
    (computeRow defaultThresholds (mkRow 0 500)).variance_pct = .inf ∧
    (computeRow defaultThresholds (mkRow 0 500)).spending_rate = .inf := by
  norm_num [computeRow, mkRow, fdiv, FloatVal.mul100, FloatVal.round2]

/-- C2 amended: for every record with `budgeted_amount = 0` the code raises
no error; it silently produces `variance_pct = spending_rate = +inf` when
`actual_amount > 0` and `NaN` when `actual_amount = 0`. -/
theorem c2_amended_zero_budget_inf_nan (t : VarianceThresholds) (r : SpendingRow)
    (hb : r.monthly_budget = 0) :
    (0 < r.actual_spending →
        (computeRow t r).variance_pct = .inf ∧
        (computeRow t r).spending_rate = .inf) ∧
      (r.actual_spending = 0 →
        (computeRow t r).variance_pct = .nan ∧
        (computeRow t r).spending_rate = .nan) := by
  constructor
  · intro ha
    simp [computeRow, fdiv, hb, sub_zero, ha, FloatVal.mul100, FloatVal.round2]
  · intro ha
    simp [computeRow, fdiv, hb, ha, FloatVal.mul100, FloatVal.round2]

theorem c2_amended_witness :
    (computeRow defaultThresholds (mkRow 0 7)).variance_pct = .inf ∧
    (computeRow defaultThresholds (mkRow 0 7)).spending_rate = .inf :=
  (c2_amended_zero_budget_inf_nan defaultThresholds (mkRow 0 7) rfl).1 (by decide)

/-- C3: for every strictly ordered threshold configuration,
`categorize_variance` maps each threshold value itself to the more severe
adjacent category, because the source comparisons are `<=` and `>=`. -/
theorem c3_boundary_exactness (t : VarianceThresholds)
    (h1 : t.significantly_over < t.slightly_over)
    (h2 : t.slightly_over < t.slightly_under)
    (h3 : t.slightly_under < t.significantly_under) :
    categorize_variance t (.fin t.significantly_over) = .significantlyOverrun ∧
    categorize_variance t (.fin t.slightly_over) = .slightyOverrun ∧
    categorize_variance t (.fin t.significantly_under) = .significantlyUnderspending ∧
    categorize_variance t (.fin t.slightly_under) = .slightlyUnderspending := by
  refine ⟨?_, ?_, ?_, ?_⟩ <;>
  · simp only [categorize_variance, FloatVal.pyLe, FloatVal.pyGe, decide_eq_true_eq]
    split_ifs <;> first | rfl | (exfalso; linarith)

theorem c3_witness :
    categorize_variance defaultThresholds (.fin defaultThresholds.significantly_over) =
        .significantlyOverrun ∧
      categorize_variance defaultThresholds (.fin defaultThresholds.slightly_over) =
        .slightyOverrun ∧
      categorize_variance defaultThresholds (.fin defaultThresholds.significantly_under) =
        .significantlyUnderspending ∧
      categorize_variance defaultThresholds (.fin defaultThresholds.slightly_under) =
        .slightlyUnderspending :=
  c3_boundary_exactness defaultThresholds (by decide) (by decide) (by decide)

/-- C10: with the default thresholds, a zero budget raises nothing: positive
actual spending gives `variance_pct = +inf`, which the comparison chain sends
to `'Significantly Underspending'` with attention flagged, and zero actual
spending gives `NaN`, whose comparisons are all False, landing in
`'Within Target'` without attention. -/
theorem c10_zero_budget_categories (r : SpendingRow) (hb : r.monthly_budget = 0) :
    (0 < r.actual_spending →
        (computeRow defaultThresholds r).variance_pct = .inf ∧
        (computeRow defaultThresholds r).variance_category =
          "Significantly Underspending" ∧
        (computeRow defaultThresholds r).needs_attention = true) ∧
      (r.actual_spending = 0 →
        (computeRow defaultThresholds r).variance_pct = .nan ∧
        (computeRow defaultThresholds r).variance_category = "Within Target" ∧
        (computeRow defaultThresholds r).needs_attention = false) := by
  constructor
  · intro ha
    simp [computeRow, fdiv, hb, sub_zero, ha, FloatVal.mul100, FloatVal.round2,
      categorize_variance, FloatVal.pyLe, FloatVal.pyGe, categoryString, defaultThresholds]
  · intro ha
    simp [computeRow, fdiv, hb, ha, FloatVal.mul100, FloatVal.round2,
      categorize_variance, FloatVal.pyLe, FloatVal.pyGe, categoryString, defaultThresholds]

theorem c10_witness :
    ((computeRow defaultThresholds (mkRow 0 500)).variance_pct = .inf ∧
      (computeRow defaultThresholds (mkRow 0 500)).variance_category =
        "Significantly Underspending" ∧
      (computeRow defaultThresholds (mkRow 0 500)).needs_attention = true) ∧
    ((computeRow defaultThresholds (mkRow 0 0)).variance_pct = .nan ∧
      (computeRow defaultThresholds (mkRow 0 0)).variance_category = "Within Target" ∧
      (computeRow defaultThresholds (mkRow 0 0)).needs_attention = false) :=
  ⟨(c10_zero_budget_categories (mkRow 0 500) rfl).1 (by decide),
   (c10_zero_budget_categories (mkRow 0 0) rfl).2 rfl⟩

/-- C4 counterexample: `calculate_variances` does have a side effect on its
argument: the column assignments mutate the caller's frame in place, so a
frame without the derived columns is not left unmodified. -/
theorem c4_input_frame_mutated :
    calculate_variances BudgetVarianceAnalyzer.init
        [{ base := mkRow 10000 11200, derived := none }] ≠
      [{ base := mkRow 10000 11200, derived := none }] := by
  simp [calculate_variances]

/-- C4 amended: `calculate_variances` mutates the frame it is given, adding
or overwriting the five derived columns in place and returning that same
frame; the pre-existing base columns of every row are left unchanged, and
the result depends only on the input rows and the threshold configuration. -/
theorem c4_amended_bases_preserved (a : BudgetVarianceAnalyzer) (df : List DataRow) :
    (calculate_variances a df).map DataRow.base = df.map DataRow.base := by
  simp [calculate_variances]

/-- Modelled from the spec words, for comparison with the source rounding:
two-decimal rounding with ties upward (half-up), via Mathlib round, which
rounds ties up. -/
def roundTo2decHalfUp (q : ℚ) : ℚ := (round (q * 100) : ℚ) / 100

/-- C5 counterexample: at budget 800, actual 801 the exact variance
percentage is 0.125; half-up rounding would store 0.13, but the code rounds
ties to even and stores 0.12. -/
theorem c5_not_half_up :
    (computeRow defaultThresholds (mkRow 800 801)).variance_pct ≠
      .fin (roundTo2decHalfUp ((801 - 800) / 800 * 100)) := by
  norm_num [computeRow, mkRow, fdiv, FloatVal.mul100, FloatVal.round2, roundTo2dec,
    roundHalfEven, roundTo2decHalfUp, round_eq]

/-- With a nonzero budget the stored percentages are exactly the true
quotients times 100, rounded to two decimals with ties to even. -/
theorem computeRow_pct_spec (t : VarianceThresholds) (r : SpendingRow)
    (hb : r.monthly_budget ≠ 0) :
    (computeRow t r).variance_pct =
      .fin (roundTo2dec
        ((r.actual_spending - r.monthly_budget) / r.monthly_budget * 100)) ∧
    (computeRow t r).spending_rate =
      .fin (roundTo2dec (r.actual_spending / r.monthly_budget * 100)) := by
  simp [computeRow, fdiv, hb, FloatVal.mul100, FloatVal.round2]

/-- C5 amended: for every record with a positive budget, `variance_pct` and
`spending_rate` are the exact quotients times 100 rounded to two decimals
with ties to even (numpy rounding), not half-up. -/
theorem c5_amended_round_half_even (t : VarianceThresholds) (r : SpendingRow)
    (hb : 0 < r.monthly_budget) :
    (computeRow t r).variance_pct =
      .fin (roundTo2dec
        ((r.actual_spending - r.monthly_budget) / r.monthly_budget * 100)) ∧
    (computeRow t r).spending_rate =
      .fin (roundTo2dec (r.actual_spending / r.monthly_budget * 100)) :=
  computeRow_pct_spec t r (ne_of_gt hb)

theorem c5_amended_witness :
    (computeRow defaultThresholds (mkRow 800 801)).variance_pct =
      .fin (roundTo2dec (((mkRow 800 801).actual_spending -
        (mkRow 800 801).monthly_budget) / (mkRow 800 801).monthly_budget * 100)) ∧
    (computeRow defaultThresholds (mkRow 800 801)).spending_rate =
      .fin (roundTo2dec
        ((mkRow 800 801).actual_spending / (mkRow 800 801).monthly_budget * 100)) :=
  c5_amended_round_half_even defaultThresholds (mkRow 800 801) (by decide)

/-- C7: on every computed row, the `'needs attention'` flag is true exactly
when the category is `'Significantly Overrun'` or
`'Significantly Underspending'`, since it is defined by string membership in
that two-element list. -/
theorem c7_needs_attention_iff (t : VarianceThresholds) (r : SpendingRow) :
    (computeRow t r).needs_attention = true ↔
      ((computeRow t r).variance_category = "Significantly Overrun" ∨
        (computeRow t r).variance_category = "Significantly Underspending") := by
  have key : ∀ c : VarianceCategory,
      ((["Significantly Overrun", "Significantly Underspending"] : List String).contains
          (categoryString c) = true ↔
        (categoryString c = "Significantly Overrun" ∨
          categoryString c = "Significantly Underspending")) := by
    intro c
    cases c <;> decide
  exact key (categorize_variance t
    ((fdiv (r.actual_spending - r.monthly_budget) r.monthly_budget).mul100.round2))

/-- C8: construction in the source performs no threshold validation at all:
`__init__` takes no threshold arguments, has no failure path, and always
succeeds, unconditionally installing the fixed default thresholds (which do
happen to satisfy the required strict ordering). -/
theorem c8_init_unvalidated :
    BudgetVarianceAnalyzer.init.variance_thresholds = defaultThresholds ∧
    defaultThresholds.significantly_over < defaultThresholds.slightly_over ∧
    defaultThresholds.slightly_over < defaultThresholds.slightly_under ∧
    defaultThresholds.slightly_under < defaultThresholds.significantly_under :=
  ⟨rfl, by decide, by decide, by decide⟩

/-- C9: `calculate_variances` yields exactly one output row per input row,
in the same order, with no filtering: the output has the input's length and
its `i`-th row is the `i`-th input row with its derived columns filled in. -/
theorem c9_one_result_per_record (a : BudgetVarianceAnalyzer) (df : List DataRow)
    (_h : ∀ r ∈ df, 0 < r.base.monthly_budget) :
    (calculate_variances a df).length = df.length ∧
    ∀ i : Nat, (calculate_variances a df)[i]? =
      (df[i]?).map fun r =>
        { base := r.base, derived := some (computeRow a.variance_thresholds r.base) } := by
  constructor
  · simp [calculate_variances]
  · intro i
    simp [calculate_variances]

theorem c9_witness :
    (calculate_variances BudgetVarianceAnalyzer.init
        [{ base := mkRow 10000 11200, derived := none }]).length =
      ([{ base := mkRow 10000 11200, derived := none }] : List DataRow).length :=
  (c9_one_result_per_record BudgetVarianceAnalyzer.init
      [{ base := mkRow 10000 11200, derived := none }] (by decide)).1

/-- Rounding to the nearest integer with ties to even is off by at most
one half. -/
theorem roundHalfEven_sub_le (y : ℚ) : |(roundHalfEven y : ℚ) - y| ≤ 1 / 2 := by
  have h0 : (⌊y⌋ : ℚ) ≤ y := Int.floor_le y
  have h1 : y < (⌊y⌋ : ℚ) + 1 := Int.lt_floor_add_one y
  unfold roundHalfEven
  split_ifs with hlt hgt hev <;>
  · rw [abs_le]
    push_cast
    constructor <;> linarith

/-- C6 counterexample: at budget 1000000, actual 1000040 the exact variance
percentage 0.004 rounds to 0.00, so budgeted times variance_pct over 100 is
0 while the variance amount is 40: the claimed 0.01 tolerance fails. -/
theorem c6_roundtrip_tolerance_fails :
    (computeRow defaultThresholds (mkRow 1000000 1000040)).variance_pct = .fin 0 ∧
    (computeRow defaultThresholds (mkRow 1000000 1000040)).budget_variance = 40 ∧
    ¬ |(computeRow defaultThresholds (mkRow 1000000 1000040)).budget_variance -
        (mkRow 1000000 1000040).monthly_budget * (0 / 100)| ≤ 1 / 100 := by
  have hbv :
      (computeRow defaultThresholds (mkRow 1000000 1000040)).budget_variance = 40 := by
    norm_num [computeRow, mkRow]
  refine ⟨?_, hbv, ?_⟩
  · norm_num [computeRow, mkRow, fdiv, FloatVal.mul100, FloatVal.round2, roundTo2dec,
      roundHalfEven]
  · rw [hbv]
    norm_num [mkRow]

/-- C6 amended: for every record with a positive budget, the variance amount
agrees with budget times the stored percentage over 100 up to the rounding
error budget/20000 (half of one hundredth of a percent of the budget), which
exceeds the claimed fixed 0.01 once the budget exceeds 200. -/
theorem c6_amended_roundtrip (t : VarianceThresholds) (r : SpendingRow)
    (hb : 0 < r.monthly_budget) (p : ℚ)
    (hp : (computeRow t r).variance_pct = .fin p) :
    |(computeRow t r).budget_variance - r.monthly_budget * (p / 100)| ≤
      r.monthly_budget / 20000 := by
  have hbne : r.monthly_budget ≠ 0 := ne_of_gt hb
  have hpct := (computeRow_pct_spec t r hbne).1
  rw [hpct] at hp
  injection hp with hpp
  have hbv : (computeRow t r).budget_variance =
      r.actual_spending - r.monthly_budget := rfl
  rw [hbv, ← hpp]
  simp only [roundTo2dec]
  set y := (r.actual_spending - r.monthly_budget) / r.monthly_budget * 100 * 100
    with hy
  have hkey : |y - (roundHalfEven y : ℚ)| ≤ 1 / 2 := by
    rw [abs_sub_comm]
    exact roundHalfEven_sub_le y
  have hv : r.actual_spending - r.monthly_budget = r.monthly_budget * y / 10000 := by
    rw [hy]
    field_simp
    ring
  rw [hv]
  have hsplit :
      r.monthly_budget * y / 10000 -
          r.monthly_budget * ((roundHalfEven y : ℚ) / 100 / 100) =
        r.monthly_budget / 10000 * (y - (roundHalfEven y : ℚ)) := by
    ring
  rw [hsplit, abs_mul, abs_of_pos (show (0:ℚ) < r.monthly_budget / 10000 by positivity)]
  calc r.monthly_budget / 10000 * |y - (roundHalfEven y : ℚ)| ≤
        r.monthly_budget / 10000 * (1 / 2) :=
        mul_le_mul_of_nonneg_left hkey (by positivity)
    _ = r.monthly_budget / 20000 := by ring

theorem c6_amended_witness :
    |(computeRow defaultThresholds (mkRow 10000 11200)).budget_variance -
        (mkRow 10000 11200).monthly_budget * (12 / 100)| ≤
      (mkRow 10000 11200).monthly_budget / 20000 :=
  c6_amended_roundtrip defaultThresholds (mkRow 10000 11200) (by decide) 12
    (by norm_num [computeRow, mkRow, fdiv, FloatVal.mul100, FloatVal.round2,
      roundTo2dec, roundHalfEven])

end BudgetVariance
